import Mathlib

/-!
# Verification of the Vencord excerpt

A shallow embedding, in Lean 4, of four source files of the Vencord
repository:

* `src/utils/discord.tsx` — Discord-API helper wrappers,
* `src/plugins/oneko.ts` — two plugin declarations (`oneko` and
  `AnonymiseFileNames`),
* `scripts/build/build.mts` and `scripts/build/build.mjs` — the two
  esbuild driver scripts,

together with theorems settling the specification claims about them.

Host-supplied machinery (webpack stores, the Flux dispatcher, the REST
client, esbuild itself) is modelled as explicit parameters or world
state; JavaScript objects become Lean structures, optional fields become
`Option`, and `async`/thrown exceptions become `Except`.
-/

namespace Vencord

/-! ## Data model for `src/utils/discord.tsx` -/

/-- A Discord user, with the fields the helpers in `discord.tsx` read
(from `discord-types/general`). -/
structure User where
  username : String
  discriminator : String
  tag : String
deriving DecidableEq, Repr

/-- `getUniqueUsername` from `src/utils/discord.tsx`:
`user.discriminator === "0" ? user.username : user.tag`. -/
def getUniqueUsername (user : User) : String :=
  if user.discriminator = "0" then user.username else user.tag

/-- A guild member object, as carried by a profile response
(`body.guild_member`). Its internals are irrelevant to the helpers. -/
structure GuildMember where
  nick : String
deriving DecidableEq, Repr

/-- A cached user profile, the value type of `UserProfileStore`.
Its internals are irrelevant to the helpers. -/
structure UserProfile where
  userId : String
  bio : String
deriving DecidableEq, Repr

/-- The body of the REST response for `GET /users/{id}/profile`:
the fields `fetchUserProfile` reads are `body.user` and
`body.guild_member`. -/
structure RestProfileBody where
  user : User
  guild_member : Option GuildMember
deriving DecidableEq, Repr

/-- `FetchUserProfileOptions` from `src/utils/discord.tsx` — every
field is optional. -/
structure FetchUserProfileOptions where
  friend_token : Option String := none
  connections_role_id : Option String := none
  guild_id : Option String := none
  with_mutual_guilds : Option Bool := none
  with_mutual_friends_count : Option Bool := none
deriving DecidableEq, Repr

/-- The query object `fetchUserProfile` passes to `RestAPI.get`:
`{ with_mutual_guilds: false, with_mutual_friends_count: false,
...options }` — the spread overrides the two defaults when the caller
supplied them, and adds the other option fields when present. -/
structure RestQuery where
  with_mutual_guilds : Bool
  with_mutual_friends_count : Bool
  friend_token : Option String
  connections_role_id : Option String
  guild_id : Option String
deriving DecidableEq, Repr

/-- The argument object of `RestAPI.get` built by `fetchUserProfile`. -/
structure RestRequest where
  url : String
  query : RestQuery
  oldFormErrors : Bool
deriving DecidableEq, Repr

/-- The events `fetchUserProfile` hands to `FluxDispatcher.dispatch`. -/
inductive FluxEvent where
  | userProfileFetchStart (userId : String)
  | userUpdate (user : User)
  | userProfileFetchSuccess (body : RestProfileBody)
  | guildMemberProfileUpdate (guildId : String) (guildMember : GuildMember)
deriving DecidableEq, Repr

/-- The observable host state `fetchUserProfile` interacts with: the
`UserProfileStore` cache, the trace of dispatched Flux events, and the
trace of issued REST requests. -/
structure DiscordWorld where
  profiles : String → Option UserProfile
  dispatchedEvents : List FluxEvent
  restRequests : List RestRequest

/-- Host behaviour supplied at runtime: the REST client response and
the store reducer that the Flux dispatcher drives (both live in
Discord's own code, outside this repository). -/
structure DiscordHost where
  restGet : RestRequest → RestProfileBody
  applyEvent : (String → Option UserProfile) → FluxEvent → (String → Option UserProfile)

/-- `FluxDispatcher.dispatch`: records the event and lets the host's
store reducer update the profile store. -/
def dispatch (host : DiscordHost) (w : DiscordWorld) (e : FluxEvent) : DiscordWorld :=
  { w with
    dispatchedEvents := w.dispatchedEvents ++ [e]
    profiles := host.applyEvent w.profiles e }

/-- The merged query of `fetchUserProfile`:
`{ with_mutual_guilds: false, with_mutual_friends_count: false, ...options }`. -/
def mergeQuery (options : Option FetchUserProfileOptions) : RestQuery :=
  match options with
  | none =>
      { with_mutual_guilds := false, with_mutual_friends_count := false
        friend_token := none, connections_role_id := none, guild_id := none }
  | some o =>
      { with_mutual_guilds := o.with_mutual_guilds.getD false
        with_mutual_friends_count := o.with_mutual_friends_count.getD false
        friend_token := o.friend_token
        connections_role_id := o.connections_role_id
        guild_id := o.guild_id }

/-- JavaScript truthiness of `options?.guild_id`: absent, `undefined`
and the empty string are all falsy. -/
def truthyGuildId (options : Option FetchUserProfileOptions) : Bool :=
  match options with
  | none => false
  | some o =>
      match o.guild_id with
      | none => false
      | some g => g ≠ ""

/-- `fetchUserProfile` from `src/utils/discord.tsx`.  Returns the
profile the source returns, paired with the final world.  The source:

* returns the cached profile immediately when `UserProfileStore` has one;
* otherwise dispatches `USER_PROFILE_FETCH_START`, issues
  `RestAPI.get` on `/users/{id}/profile`, dispatches `USER_UPDATE` and
  `USER_PROFILE_FETCH_SUCCESS`, conditionally dispatches
  `GUILD_MEMBER_PROFILE_UPDATE`, and re-reads the store. -/
def fetchUserProfile (host : DiscordHost) (id : String)
    (options : Option FetchUserProfileOptions) (w : DiscordWorld) :
    Option UserProfile × DiscordWorld :=
  match w.profiles id with
  | some cached => (some cached, w)
  | none =>
    let w1 := dispatch host w (.userProfileFetchStart id)
    let req : RestRequest :=
      { url := "/users/" ++ id ++ "/profile"
        query := mergeQuery options
        oldFormErrors := true }
    let body := host.restGet req
    let w2 := { w1 with restRequests := w1.restRequests ++ [req] }
    let w3 := dispatch host w2 (.userUpdate body.user)
    let w4 := dispatch host w3 (.userProfileFetchSuccess body)
    let w5 :=
      match truthyGuildId options, options.bind (fun o => o.guild_id), body.guild_member with
      | true, some gid, some gm => dispatch host w4 (.guildMemberProfileUpdate gid gm)
      | _, _, _ => w4
    (w5.profiles id, w5)

/-! ## `sendMessage` -/

/-- The fields of a `MessageObject` (from `@api/MessageEvents`) that
`sendMessage` supplies defaults for. -/
structure MessageObject where
  content : String
  invalidEmojis : List String
  tts : Bool
  validNonShortcutEmojis : List String
deriving DecidableEq, Repr

/-- `Partial<MessageObject>`: every field optional. -/
structure PartialMessageObject where
  content : Option String := none
  invalidEmojis : Option (List String) := none
  tts : Option Bool := none
  validNonShortcutEmojis : Option (List String) := none
deriving DecidableEq, Repr

/-- `MessageExtra.allowedMentions` from `src/utils/discord.tsx`. -/
structure AllowedMentions where
  parse : List String
  replied_user : Bool
deriving DecidableEq, Repr

/-- `Partial<MessageExtra>` from `src/utils/discord.tsx`. -/
structure PartialMessageExtra where
  messageReference : Option String := none
  allowedMentions : Option AllowedMentions := none
  stickerIds : Option (List String) := none
deriving DecidableEq, Repr

/-- The message object `sendMessage` builds:
`{ content: "", invalidEmojis: [], tts: false,
validNonShortcutEmojis: [], ...data }` — the caller's fields override
the constant defaults. -/
def mergeMessageData (data : PartialMessageObject) : MessageObject :=
  { content := data.content.getD ""
    invalidEmojis := data.invalidEmojis.getD []
    tts := data.tts.getD false
    validNonShortcutEmojis := data.validNonShortcutEmojis.getD [] }

/-- The host-supplied `MessageActions.sendMessage` (found by
`findByPropsLazy("editMessage", "sendMessage")`); `α` is its opaque
result (a promise in the source). -/
structure MessageHost (α : Type) where
  sendMessageImpl : String → MessageObject → Option Bool → Option PartialMessageExtra → α

/-- `sendMessage` from `src/utils/discord.tsx`: builds `messageData`
and forwards everything to `MessageActions.sendMessage`. -/
def sendMessage {α : Type} (host : MessageHost α) (channelId : String)
    (data : PartialMessageObject) (waitForChannelReady : Option Bool)
    (extra : Option PartialMessageExtra) : α :=
  host.sendMessageImpl channelId (mergeMessageData data) waitForChannelReady extra

/-! ## `openUserProfile` -/

/-- The argument object `openUserProfile` passes to the host-located
`openProfile` function. -/
structure OpenProfileArgs where
  userId : String
  guildId : Option String
  channelId : Option String
  analyticsPage : String
  analyticsSection : String
deriving DecidableEq, Repr

/-- Host state read by `openUserProfile`: `UserUtils.fetchUser`,
`SelectedGuildStore.getGuildId()`, `SelectedChannelStore.getChannelId()`. -/
structure ProfileHost where
  fetchUser : String → Option User
  selectedGuildId : Option String
  selectedChannelId : Option String

/-- JavaScript truthiness of a nullable string (`guildId ? _ : _`). -/
def truthyStr (s : Option String) : Bool :=
  match s with
  | none => false
  | some g => g ≠ ""

/-- `openUserProfile` from `src/utils/discord.tsx`: fetches the user,
throws `"No such user: " + id` when it is missing, and otherwise calls
`openProfile` with the argument object built from the selected guild
and channel.  The `Except` value is the thrown error or the argument
object handed to the host. -/
def openUserProfile (host : ProfileHost) (id : String) :
    Except String OpenProfileArgs :=
  match host.fetchUser id with
  | none => .error ("No such user: " ++ id)
  | some _ =>
      .ok { userId := id
            guildId := host.selectedGuildId
            channelId := host.selectedChannelId
            analyticsPage :=
              if truthyStr host.selectedGuildId then "Guild Channel" else "DM Channel"
            analyticsSection := "Profile Popout" }

/-! ## `openImageModal` -/

/-- An opaque link-rendering component (the source's
`renderLinkComponent`, defaulting to a `MaskedLink` wrapper). -/
structure LinkRenderer where
  tag : String
deriving DecidableEq, Repr

/-- The props of the `ImageModal` element rendered by
`openImageModal`. -/
structure ImageModalProps where
  className : String
  original : String
  placeholder : String
  src : String
  renderLinkComponent : LinkRenderer
  shouldHideMediaOptions : Bool
  shouldAnimate : Bool
deriving DecidableEq, Repr

/-- `Partial<React.ComponentProps<ImageModal>>`: the caller's
overrides, spread last in the JSX. -/
structure PartialImageModalProps where
  className : Option String := none
  original : Option String := none
  placeholder : Option String := none
  src : Option String := none
  renderLinkComponent : Option LinkRenderer := none
  shouldHideMediaOptions : Option Bool := none
  shouldAnimate : Option Bool := none
deriving DecidableEq, Repr

/-- `ModalSize` from `./modal`; `openImageModal` uses `DYNAMIC`. -/
inductive ModalSize where
  | DYNAMIC
  | SMALL
deriving DecidableEq, Repr

/-- The element tree `openImageModal` renders inside the modal: a
`ModalRoot` (with the image-modal class and dynamic size) wrapping an
`ImageModal`. -/
inductive ModalRender where
  | modalRoot (className : String) (size : ModalSize) (child : ImageModalProps)
deriving DecidableEq, Repr

/-- Host pieces used by `openImageModal`: `openModal` (returning the
modal key string), the `ModalImageClasses` class names, and the
`MaskedLink`-based link renderer. -/
structure ModalHost where
  openModalImpl : ModalRender → String
  modalClass : String
  imageClass : String
  maskedLinkRenderer : LinkRenderer

/-- The `ImageModal` props built by `openImageModal`: explicit
`className`/`original`/`placeholder`/`src`/`renderLinkComponent`/
`shouldHideMediaOptions`/`shouldAnimate`, then `{...props}` overriding
them. -/
def imageModalRender (host : ModalHost) (url : String)
    (props : PartialImageModalProps) : ModalRender :=
  .modalRoot host.modalClass .DYNAMIC
    { className := props.className.getD host.imageClass
      original := props.original.getD url
      placeholder := props.placeholder.getD url
      src := props.src.getD url
      renderLinkComponent := props.renderLinkComponent.getD host.maskedLinkRenderer
      shouldHideMediaOptions := props.shouldHideMediaOptions.getD false
      shouldAnimate := props.shouldAnimate.getD true }

/-- `openImageModal` from `src/utils/discord.tsx`: forwards the
rendered modal to `openModal` and returns its key. -/
def openImageModal (host : ModalHost) (url : String)
    (props : PartialImageModalProps) : String :=
  host.openModalImpl (imageModalRender host url props)

/-! ## `AnonymiseFileNames.anonymise` (from `src/plugins/oneko.ts`) -/

/-- A `\w` word character: `[A-Za-z0-9_]`. -/
def isWordChar (c : Char) : Bool :=
  (Char.ofNat 65 ≤ c && c ≤ Char.ofNat 90) ||
  (Char.ofNat 97 ≤ c && c ≤ Char.ofNat 122) ||
  (Char.ofNat 48 ≤ c && c ≤ Char.ofNat 57) ||
  c = Char.ofNat 95

/-- Whether the regex `\.tar\.\w+$` matches the whole of `cs` (the
suffix starting at a candidate index): a literal `.tar.` followed by
at least one word character running to the end of the string. -/
def tarSuffixMatch : List Char → Bool
  | '.' :: 't' :: 'a' :: 'r' :: '.' :: rest => !rest.isEmpty && rest.all isWordChar
  | _ => false

/-- `tarExtMatcher.exec(file)?.index`: the leftmost index at which
`/\.tar\.\w+$/` matches, or `none` when the regex does not match. -/
def tarExtIndex (cs : List Char) : Option Nat :=
  (List.range cs.length).find? (fun i => tarSuffixMatch (cs.drop i))

/-- `file.lastIndexOf(".")` as an `Option`: the greatest index holding
a `'.'`, `none` standing for JavaScript's `-1`. -/
def lastIndexOfDot : List Char → Option Nat
  | [] => none
  | c :: cs =>
      match lastIndexOfDot cs with
      | some i => some (i + 1)
      | none => if c = '.' then some 0 else none

/-- The `ext` computed by `anonymise`:
`extIdx = tarMatch?.index ?? file.lastIndexOf(".")`,
`ext = extIdx !== -1 ? file.slice(extIdx) : ""`. -/
def anonymiseExt (file : String) : String :=
  match (tarExtIndex file.toList).orElse (fun _ => lastIndexOfDot file.toList) with
  | some i => String.mk (file.toList.drop i)
  | none => ""

/-- The `Methods` enum from `src/plugins/oneko.ts`. -/
inductive Methods where
  | Random
  | Consistent
  | Timestamp
deriving DecidableEq, Repr

/-- The `Settings.plugins.AnonymiseFileNames` fields `anonymise`
reads. -/
structure AnonSettings where
  method : Methods
  randomisedLength : Nat
  consistent : String
deriving DecidableEq, Repr

/-- The alphabet of the `Random` method:
`"ABCDEFGHIJKLMNOPQRSTUVWXYZabcdefghijklmnopqrstuvwxyz0123456789"`. -/
def anonChars : List Char :=
  "ABCDEFGHIJKLMNOPQRSTUVWXYZabcdefghijklmnopqrstuvwxyz0123456789".toList

/-- The base name chosen by the `switch` in `anonymise`.  `rand k`
models the `k`-th call of `Math.floor(Math.random() * chars.length)`
(always `< 62` because `Math.random() < 1`); `now` models
`Date.now()` (milliseconds) and `perfNow` the already-floored
`Math.floor(window.performance.now())`. -/
def anonName (settings : AnonSettings) (rand : Nat → Fin 62)
    (now perfNow : Nat) : String :=
  match settings.method with
  | .Random =>
      String.mk ((List.range settings.randomisedLength).map
        (fun k => anonChars.get (Fin.cast (by decide) (rand k))))
  | .Consistent => settings.consistent
  | .Timestamp => toString (now / 1000) ++ toString perfNow

/-- `anonymise` from `src/plugins/oneko.ts`: picks a fresh base name
according to the configured method and appends the preserved
extension.  (The source's initial `let name = "image"` is dead for the
three declared methods, which the `switch` covers exhaustively.) -/
def anonymise (settings : AnonSettings) (rand : Nat → Fin 62)
    (now perfNow : Nat) (file : String) : String :=
  anonName settings rand now perfNow ++ anonymiseExt file

/-! ## Plugin declarations (from `src/plugins/oneko.ts`) -/

/-- The authors referenced from `Devs` in `@utils/constants` (not part
of the excerpt; only their identities matter). -/
inductive Dev where
  | Ven
  | adryd
  | obscurity
deriving DecidableEq, Repr

/-- A patch replacement: the source field `match` (a regex literal,
renamed because `match` is a Lean keyword) and `replace`. -/
structure PatchReplacement where
  matchRe : String
  replace : String
deriving DecidableEq, Repr

/-- A source patch: `find` plus its `replacement`. -/
structure Patch where
  find : String
  replacement : PatchReplacement
deriving DecidableEq, Repr

/-- The `OptionType` values used by the excerpt's option schemas. -/
inductive OptionType where
  | SELECT
  | NUMBER
  | STRING
deriving DecidableEq, Repr

/-- A literal JavaScript value in an option declaration. -/
inductive JsLit where
  | num (n : Nat)
  | str (s : String)
  | boolLit (b : Bool)
deriving DecidableEq, Repr

/-- One choice of a `SELECT` option (`label`/`value`/optional
`default`). -/
structure SelectChoice where
  label : String
  value : Nat
  isDefault : Option Bool := none
deriving DecidableEq, Repr

/-- One entry of a plugin's option schema.  `disabled` models the
source's `() => ...` callbacks, which read the live
`Settings.plugins.AnonymiseFileNames` object. -/
structure PluginOptionDef where
  description : String
  type : OptionType
  choices : List SelectChoice := []
  defaultVal : Option JsLit := none
  disabled : Option (AnonSettings → Bool) := none

/-- The browser-side world a plugin lifecycle hook mutates, together
with its network environment (`fetch`). -/
structure BrowserWorld where
  fetchText : String → Except String String
  onekoIntervalSet : Bool
  onekoElement : Bool
  evaluatedScripts : List String

/-- A lifecycle hook: may throw (`Except.error`). -/
def PluginHook : Type := BrowserWorld → Except String BrowserWorld

/-- The declaration shape accepted by `definePlugin` (from
`@utils/types`, outside the excerpt), restricted to the members the
two excerpt plugins use.  `AnonymiseFileNames`'s custom `anonymise`
method is embedded separately as `Vencord.anonymise`. -/
structure PluginDecl where
  name : String
  description : String
  authors : List Dev
  patches : Option (List Patch) := none
  options : Option (List (String × PluginOptionDef)) := none
  start : Option PluginHook := none
  stop : Option PluginHook := none

/-- The URL `oneko.start` fetches. -/
def onekoJsUrl : String :=
  "https://raw.githubusercontent.com/adryd325/oneko.js/5977144dce83e4d71af1de005d16e38eebeb7b72/oneko.js"

/-- The replacement gif URL substituted into the fetched script. -/
def onekoGifUrl : String :=
  "https://raw.githubusercontent.com/adryd325/oneko.js/14bab15a755d0e35cd4ae19c931d96d306f99f42/oneko.gif"

/-- JavaScript `String.prototype.replace` with a string pattern:
replaces only the first occurrence. -/
def jsReplaceOnce (s pat repl : String) : String :=
  match s.splitOn pat with
  | [] => s
  | [x] => x
  | x :: xs => x ++ repl ++ String.intercalate pat xs

/-- `oneko.start`: fetches the oneko script, rewrites its gif URL and
evaluates it (a failing fetch rejects, i.e. throws). -/
def onekoStart : PluginHook := fun w =>
  match w.fetchText onekoJsUrl with
  | .error e => .error e
  | .ok s =>
      .ok { w with evaluatedScripts :=
              w.evaluatedScripts ++ [jsReplaceOnce s "./oneko.gif" onekoGifUrl] }

/-- `oneko.stop`: clears `window.onekoInterval` and removes the
`#oneko` element; never throws. -/
def onekoStop : PluginHook := fun w =>
  .ok { w with onekoIntervalSet := false, onekoElement := false }

/-- The `oneko` plugin declaration from `src/plugins/oneko.ts`. -/
def onekoDecl : PluginDecl :=
  { name := "oneko"
    description := "cat follow mouse (real)"
    authors := [Dev.Ven, Dev.adryd]
    start := some onekoStart
    stop := some onekoStop }

/-- The `AnonymiseFileNames` plugin declaration from
`src/plugins/oneko.ts`. -/
def anonymiseFileNamesDecl : PluginDecl :=
  { name := "AnonymiseFileNames"
    authors := [Dev.obscurity]
    description := "Anonymise uploaded file names"
    patches := some [
      { find := "instantBatchUpload:function"
        replacement :=
          { matchRe := "uploadFiles:(.\x7b1,2\x7d),"
            replace := "uploadFiles:(...args)=>(args[0].uploads.forEach(f=>f.filename=$self.anonymise(f.filename)),$1(...args))," } }]
    options := some [
      ("method",
        { description := "Anonymising method"
          type := .SELECT
          choices := [
            { label := "Random Characters", value := 0, isDefault := some true },
            { label := "Consistent", value := 1 },
            { label := "Timestamp (4chan-like)", value := 2 }] }),
      ("randomisedLength",
        { description := "Random characters length"
          type := .NUMBER
          defaultVal := some (.num 7)
          disabled := some (fun s => decide (s.method ≠ Methods.Random)) }),
      ("consistent",
        { description := "Consistent filename"
          type := .STRING
          defaultVal := some (.str "image")
          disabled := some (fun s => decide (s.method ≠ Methods.Consistent)) })] }

/-- The plugin declarations occurring in the excerpt. -/
def repoPlugins : List PluginDecl := [onekoDecl, anonymiseFileNamesDecl]

/-! ## The plugin manager's lifecycle wrapper -/

/-- The world seen by the plugin manager: the browser world plus the
user-visible log/notification trail. -/
structure ManagedWorld where
  browser : BrowserWorld
  log : List String

/-- Modelled from the spec: the plugin manager that invokes a plugin's
`start`/`stop` hook is not part of the excerpt; per the spec, "a
plugin that throws during `start`/`stop` is caught and reported to the
user via a log/notification".  The wrapper therefore returns a plain
world (no exception escapes) and appends a report when the hook
threw. -/
def runLifecycleHook (hook : PluginHook) (phase : String) (pluginName : String)
    (w : ManagedWorld) : ManagedWorld :=
  match hook w.browser with
  | .ok b => { w with browser := b }
  | .error e =>
      { w with log := w.log ++
          ["Failed to " ++ phase ++ " " ++ pluginName ++ ": " ++ e] }

/-! ## The build scripts (`scripts/build/build.mts` / `build.mjs`) -/

/-- A value of an esbuild `define` entry as written by the two
scripts: a JavaScript string (a `JSON.stringify` result or an
already-encoded constant), a raw boolean (`build.mjs` flag style), or
a raw number (`build.mjs`'s `BUILD_TIMESTAMP`). -/
inductive DefineVal where
  | str (s : String)
  | boolLit (b : Bool)
  | num (n : Nat)
deriving DecidableEq, Repr

/-- `JSON.stringify` of a boolean. -/
def jsonBool (b : Bool) : String := if b then "true" else "false"

/-- `JSON.stringify` of a string (escaping is irrelevant to the
claims: the constants involved contain no quotes). -/
def jsonStr (s : String) : String := "\"" ++ s ++ "\""

/-- `JSON.stringify` of a non-negative number. -/
def jsonNat (n : Nat) : String := toString n

/-- The constants `build.mts` imports from `./common.mjs` (not part of
the excerpt), typed as the script uses them. -/
structure MtsEnv where
  IS_STANDALONE : Bool
  IS_DEV : Bool
  IS_REPORTER : Bool
  IS_UPDATER_DISABLED : Bool
  VERSION : String
  BUILD_TIMESTAMP : Nat
  processPlatform : String

/-- The object-literal part of the `defines` of `build.mts`: eight
`JSON.stringify`-ed entries. -/
def mtsDefinesBase (e : MtsEnv) : List (String × DefineVal) := [
  ("IS_STANDALONE", .str (jsonBool e.IS_STANDALONE)),
  ("IS_DEV", .str (jsonBool e.IS_DEV)),
  ("IS_REPORTER", .str (jsonBool e.IS_REPORTER)),
  ("IS_UPDATER_DISABLED", .str (jsonBool e.IS_UPDATER_DISABLED)),
  ("IS_WEB", .str (jsonBool false)),
  ("IS_EXTENSION", .str (jsonBool false)),
  ("VERSION", .str (jsonStr e.VERSION)),
  ("BUILD_TIMESTAMP", .str (jsonNat e.BUILD_TIMESTAMP))]

/-- The `defines` object of `build.mts`: the base entries, plus
`process.platform` when the build is not standalone
(`defines.IS_STANDALONE === "false"`). -/
def mtsDefines (e : MtsEnv) : List (String × DefineVal) :=
  mtsDefinesBase e ++
    (if jsonBool e.IS_STANDALONE = "false" then
      [("process.platform", .str (jsonStr e.processPlatform))]
    else [])

/-- The constants `build.mjs` imports from `./common.mjs`.
`isStandalone` and `updaterDisabled` are used un-stringified and
compared against `"false"`, so they are already-JSON-encoded
strings. -/
structure MjsEnv where
  isStandalone : String
  watch : Bool
  updaterDisabled : String
  VERSION : String
  BUILD_TIMESTAMP : Nat
  processPlatform : String

/-- The object-literal part of the `defines` of `build.mjs`: five
entries (no `IS_REPORTER`, `IS_WEB` or `IS_EXTENSION`;
`BUILD_TIMESTAMP` is a raw number). -/
def mjsDefinesBase (e : MjsEnv) : List (String × DefineVal) := [
  ("IS_STANDALONE", .str e.isStandalone),
  ("IS_DEV", .str (jsonBool e.watch)),
  ("IS_UPDATER_DISABLED", .str e.updaterDisabled),
  ("VERSION", .str (jsonStr e.VERSION)),
  ("BUILD_TIMESTAMP", .num e.BUILD_TIMESTAMP)]

/-- The `defines` object of `build.mjs`: the base entries, plus
`process.platform` when not standalone. -/
def mjsDefines (e : MjsEnv) : List (String × DefineVal) :=
  mjsDefinesBase e ++
    (if e.isStandalone = "false" then
      [("process.platform", .str (jsonStr e.processPlatform))]
    else [])

/-- The parts of an esbuild bundle configuration relevant to the
claims: entry point(s), output file, module format, IIFE global name,
and the `define` map (later keys win in JavaScript object spreads; the
scripts never repeat a key, so association-list lookup is faithful). -/
structure BundleConfig where
  entryPoints : List String
  outfile : String
  format : String
  globalName : Option String
  define : List (String × DefineVal)
deriving DecidableEq, Repr

/-- The six bundle configurations of `build.mts` (`buildOptions`):
Discord Desktop patcher/renderer/preload, then Vencord Desktop
main/renderer/preload.  Node bundles take `format` `"cjs"` from
`nodeBuildOpts`; renderers are `"iife"` with global `Vencord`. -/
def mtsBuildOptions (e : MtsEnv) : List BundleConfig := [
  { entryPoints := ["src/main/index.ts"]
    outfile := "dist/patcher.js"
    format := "cjs"
    globalName := none
    define := mtsDefines e ++ [
      ("IS_DISCORD_DESKTOP", .str (jsonBool true)),
      ("IS_VESKTOP", .str (jsonBool false))] },
  { entryPoints := ["src/Vencord.ts"]
    outfile := "dist/renderer.js"
    format := "iife"
    globalName := some "Vencord"
    define := mtsDefines e ++ [
      ("IS_DISCORD_DESKTOP", .str (jsonBool true)),
      ("IS_VESKTOP", .str (jsonBool false))] },
  { entryPoints := ["src/preload.ts"]
    outfile := "dist/preload.js"
    format := "cjs"
    globalName := none
    define := mtsDefines e ++ [
      ("IS_DISCORD_DESKTOP", .str (jsonBool true)),
      ("IS_VESKTOP", .str (jsonBool false))] },
  { entryPoints := ["src/main/index.ts"]
    outfile := "dist/vencordDesktopMain.js"
    format := "cjs"
    globalName := none
    define := mtsDefines e ++ [
      ("IS_DISCORD_DESKTOP", .str (jsonBool false)),
      ("IS_VESKTOP", .str (jsonBool true))] },
  { entryPoints := ["src/Vencord.ts"]
    outfile := "dist/vencordDesktopRenderer.js"
    format := "iife"
    globalName := some "Vencord"
    define := mtsDefines e ++ [
      ("IS_DISCORD_DESKTOP", .str (jsonBool false)),
      ("IS_VESKTOP", .str (jsonBool true))] },
  { entryPoints := ["src/preload.ts"]
    outfile := "dist/vencordDesktopPreload.js"
    format := "cjs"
    globalName := none
    define := mtsDefines e ++ [
      ("IS_DISCORD_DESKTOP", .str (jsonBool false)),
      ("IS_VESKTOP", .str (jsonBool true))] }]

/-- The six `esbuild.build` calls of `build.mjs` (the `Promise.all`
array): raw-boolean flag defines, and `IS_WEB: false` added only in
the two renderer bundles. -/
def mjsBuilds (e : MjsEnv) : List BundleConfig := [
  { entryPoints := ["src/main/index.ts"]
    outfile := "dist/patcher.js"
    format := "cjs"
    globalName := none
    define := mjsDefines e ++ [
      ("IS_DISCORD_DESKTOP", .boolLit true),
      ("IS_VESKTOP", .boolLit false)] },
  { entryPoints := ["src/Vencord.ts"]
    outfile := "dist/renderer.js"
    format := "iife"
    globalName := some "Vencord"
    define := mjsDefines e ++ [
      ("IS_WEB", .boolLit false),
      ("IS_DISCORD_DESKTOP", .boolLit true),
      ("IS_VESKTOP", .boolLit false)] },
  { entryPoints := ["src/preload.ts"]
    outfile := "dist/preload.js"
    format := "cjs"
    globalName := none
    define := mjsDefines e ++ [
      ("IS_DISCORD_DESKTOP", .boolLit true),
      ("IS_VESKTOP", .boolLit false)] },
  { entryPoints := ["src/main/index.ts"]
    outfile := "dist/vencordDesktopMain.js"
    format := "cjs"
    globalName := none
    define := mjsDefines e ++ [
      ("IS_DISCORD_DESKTOP", .boolLit false),
      ("IS_VESKTOP", .boolLit true)] },
  { entryPoints := ["src/Vencord.ts"]
    outfile := "dist/vencordDesktopRenderer.js"
    format := "iife"
    globalName := some "Vencord"
    define := mjsDefines e ++ [
      ("IS_WEB", .boolLit false),
      ("IS_DISCORD_DESKTOP", .boolLit false),
      ("IS_VESKTOP", .boolLit true)] },
  { entryPoints := ["src/preload.ts"]
    outfile := "dist/vencordDesktopPreload.js"
    format := "cjs"
    globalName := none
    define := mjsDefines e ++ [
      ("IS_DISCORD_DESKTOP", .boolLit false),
      ("IS_VESKTOP", .boolLit true)] }]

/-- The compile-time boolean a `define` entry denotes, when it is one
of the literal encodings the scripts use (`"true"`/`"false"` strings
or raw booleans). -/
def flagTruth : Option DefineVal → Option Bool
  | some (.str "true") => some true
  | some (.str "false") => some false
  | some (.boolLit b) => some b
  | _ => none

/-- The boolean value a bundle defines for flag `k`. -/
def flagValue (cfg : BundleConfig) (k : String) : Option Bool :=
  flagTruth (cfg.define.lookup k)

/-! ## `globNativesPlugin` (from `scripts/build/build.mts`) -/

/-- The filesystem as the build script observes it: `exists` and
`readdir` (entry names, in directory order). -/
structure FS where
  pathExists : String → Bool
  readdir : String → List String

/-- Node's `path.join` on the simple relative segments the script
uses. -/
def joinPath (a b : String) : String := a ++ "/" ++ b

/-- The plugin directories scanned: `["plugins", "userplugins"]`. -/
def pluginDirs : List String := ["plugins", "userplugins"]

/-- One step of the inner loop of `globNativesPlugin.onLoad`: skip the
entry unless `dirPath/fileName/native.ts` or
`dirPath/fileName/native/index.ts` exists, otherwise record one
manifest entry `(resolvedPluginName, moduleIndex)` (the source
serialises it as `import * as p<i> ...` plus a `"name": p<i>` line in
the generated module). -/
def nativeStep (fs : FS) (resolve : String → String → String) (dirPath : String)
    (acc : List (String × Nat)) (fileName : String) : List (String × Nat) :=
  if !fs.pathExists (joinPath (joinPath dirPath fileName) "native.ts") &&
      !fs.pathExists (joinPath (joinPath dirPath fileName) "native/index.ts") then acc
  else acc ++ [(resolve dirPath fileName, acc.length)]

/-- One step of the outer loop of `globNativesPlugin.onLoad`: skip
the plugin directory when it does not exist (`continue`), otherwise
fold the inner loop over its `readdir` listing. -/
def dirStep (fs : FS) (resolve : String → String → String)
    (acc : List (String × Nat)) (dir : String) : List (String × Nat) :=
  if !fs.pathExists (joinPath "src" dir) then acc
  else (fs.readdir (joinPath "src" dir)).foldl
    (nativeStep fs resolve (joinPath "src" dir)) acc

/-- The manifest entries generated by `globNativesPlugin.onLoad`:
for each of `plugins`/`userplugins` under `src` (skipped when the
directory does not exist), every entry holding a native module
contributes one `(pluginName, moduleIndex)` pair, with the module
counter `i` running across both directories.  `resolve` models the
imported `resolvePluginName`. -/
def globNativesEntries (fs : FS) (resolve : String → String → String) :
    List (String × Nat) :=
  pluginDirs.foldl (dirStep fs resolve) []

/-- Whether a plugin directory entry contains a native module, in the
claim's words: it has a `native.ts` file or a `native/index.ts`
file. -/
def hasNativeModule (fs : FS) (dirPath fileName : String) : Bool :=
  fs.pathExists (joinPath (joinPath dirPath fileName) "native.ts") ||
  fs.pathExists (joinPath (joinPath dirPath fileName) "native/index.ts")

/-- The manifest keys as the claim describes the scan: take the
existing plugin directories, keep the entries containing a native
module, and key each by its resolved plugin name. -/
def claimManifest (fs : FS) (resolve : String → String → String) : List String :=
  (pluginDirs.filter (fun d => fs.pathExists (joinPath "src" d))).flatMap
    (fun d =>
      ((fs.readdir (joinPath "src" d)).filter
          (fun f => hasNativeModule fs (joinPath "src" d) f)).map
        (fun f => resolve (joinPath "src" d) f))

/-! ## Claim-side formulations and sample inputs -/

/-- The preserved extension as claim C8 words it: the whole suffix
matched by `/\.tar\.\w+$/` when the name matches it (for an
end-anchored regex, the leftmost match is the longest matching
suffix, hence the first matching entry of `tails`); otherwise the
suffix starting at the last `'.'` (the shortest suffix beginning with
`'.'`); and the empty string when the name contains no `'.'`. -/
def claimExt (file : String) : String :=
  match file.toList.tails.find? tarSuffixMatch with
  | some s => String.mk s
  | none =>
      match (file.toList.tails.filter (fun t => t.head? == some '.')).getLast? with
      | some t => String.mk t
      | none => ""

/-- The bundle interface claim C6 compares across the two build
scripts: entry points, output file, module format (plus the IIFE
global name, fixed by the format). -/
def bundleShape (c : BundleConfig) : List String × String × String × Option String :=
  (c.entryPoints, c.outfile, c.format, c.globalName)

/-- The pair of target-distribution flags of a bundle. -/
def flagPair (c : BundleConfig) : Option Bool × Option Bool :=
  (flagValue c "IS_DISCORD_DESKTOP", flagValue c "IS_VESKTOP")

/-- Claim C7's invariant on one bundle: exactly one of
`IS_DISCORD_DESKTOP` and `IS_VESKTOP` is defined as `true` and the
other as `false`. -/
def exactlyOneTargetFlag (c : BundleConfig) : Bool :=
  flagPair c == (some true, some false) || flagPair c == (some false, some true)

/-- The six output files both build scripts write, in build order. -/
def distOutfiles : List String :=
  ["dist/patcher.js", "dist/renderer.js", "dist/preload.js",
   "dist/vencordDesktopMain.js", "dist/vencordDesktopRenderer.js",
   "dist/vencordDesktopPreload.js"]

/-- Whether a path lies under `dist/`. -/
def underDist (s : String) : Bool :=
  s.toList.take 5 = "dist/".toList

/-- A sample user (a pomelo user: discriminator `"0"`). -/
def sampleUser : User :=
  { username := "alice", discriminator := "0", tag := "alice#0" }

/-- A sample legacy user (non-`"0"` discriminator). -/
def sampleLegacyUser : User :=
  { username := "bob", discriminator := "1337", tag := "bob#1337" }

def sampleProfile : UserProfile := { userId := "7", bio := "hello" }

def sampleBody : RestProfileBody := { user := sampleUser, guild_member := none }

/-- A sample host whose store reducer leaves the store unchanged. -/
def sampleHost : DiscordHost :=
  { restGet := fun _ => sampleBody, applyEvent := fun f _ => f }

/-- A world whose profile store has a cached profile for user `"7"`. -/
def cachedWorld : DiscordWorld :=
  { profiles := fun i => if i = "7" then some sampleProfile else none
    dispatchedEvents := []
    restRequests := [] }

/-- A world with an empty profile store. -/
def emptyWorld : DiscordWorld :=
  { profiles := fun _ => none, dispatchedEvents := [], restRequests := [] }

def sampleProfileHost : ProfileHost :=
  { fetchUser := fun i => if i = "7" then some sampleUser else none
    selectedGuildId := none
    selectedChannelId := none }

def sampleModalHost : ModalHost :=
  { openModalImpl := fun _ => "modal-key"
    modalClass := "modalClass"
    imageClass := "imageClass"
    maskedLinkRenderer := { tag := "MaskedLink" } }

def sampleMessageHost : MessageHost (String × MessageObject) :=
  { sendMessageImpl := fun chan m _ _ => (chan, m) }

def sampleBrowser : BrowserWorld :=
  { fetchText := fun _ => .error "offline"
    onekoIntervalSet := false
    onekoElement := false
    evaluatedScripts := [] }

def sampleManagedWorld : ManagedWorld := { browser := sampleBrowser, log := [] }

def sampleMtsEnv : MtsEnv :=
  { IS_STANDALONE := true, IS_DEV := false, IS_REPORTER := false
    IS_UPDATER_DISABLED := false, VERSION := "1.6.5"
    BUILD_TIMESTAMP := 1700000000000, processPlatform := "linux" }

def sampleMjsEnv : MjsEnv :=
  { isStandalone := "true", watch := false, updaterDisabled := "false"
    VERSION := "1.6.5", BUILD_TIMESTAMP := 1700000000000
    processPlatform := "linux" }

/-! ## Theorems -/

/-- Association-list lookup skips a prefix that does not bind the
key. -/
theorem lookup_append_none :
    ∀ (l₁ : List (String × DefineVal)) {l₂ : List (String × DefineVal)} {k : String},
      List.lookup k l₁ = none → List.lookup k (l₁ ++ l₂) = List.lookup k l₂
  | [], _, _, _ => rfl
  | (k', v) :: xs, l₂, k, h => by
      simp only [List.lookup, List.cons_append] at h ⊢
      cases hk : (k == k') with
      | false =>
          simp only [hk] at h ⊢
          exact lookup_append_none xs h
      | true =>
          simp only [hk] at h
          exact Option.noConfusion h

/-- C10: `getUniqueUsername` returns `user.username` exactly when
`user.discriminator` is the string `"0"`, and `user.tag` otherwise. -/
theorem getUniqueUsername_correct (user : User) :
    (user.discriminator = "0" → getUniqueUsername user = user.username) ∧
    (user.discriminator ≠ "0" → getUniqueUsername user = user.tag) := by
  unfold getUniqueUsername
  constructor <;> intro h <;> simp [h]

theorem getUniqueUsername_correct_witness :
    getUniqueUsername sampleUser = "alice" ∧
    getUniqueUsername sampleLegacyUser = "bob#1337" :=
  ⟨(getUniqueUsername_correct sampleUser).1 rfl,
   (getUniqueUsername_correct sampleLegacyUser).2 (by decide)⟩

/-- C9: when `UserProfileStore.getUserProfile(id)` has a cached
profile, `fetchUserProfile` returns it and leaves the world — the
dispatched-event trace, the REST-request trace and the store —
unchanged. -/
theorem fetchUserProfile_cached (host : DiscordHost) (id : String)
    (options : Option FetchUserProfileOptions) (w : DiscordWorld)
    (p : UserProfile) (h : w.profiles id = some p) :
    fetchUserProfile host id options w = (some p, w) := by
  unfold fetchUserProfile
  rw [h]

theorem fetchUserProfile_cached_witness :
    fetchUserProfile sampleHost "7" none cachedWorld = (some sampleProfile, cachedWorld) :=
  fetchUserProfile_cached sampleHost "7" none cachedWorld sampleProfile rfl

/-- C5: each build script starts builds for exactly six bundles —
patcher/renderer/preload for Discord Desktop, then
main/renderer/preload for Vencord Desktop — and the six output files
all live under `dist/` and are pairwise distinct. -/
theorem six_distinct_bundles (e : MtsEnv) (e' : MjsEnv) :
    (mtsBuildOptions e).map BundleConfig.outfile = distOutfiles ∧
    (mjsBuilds e').map BundleConfig.outfile = distOutfiles ∧
    distOutfiles.length = 6 ∧
    distOutfiles.Nodup ∧
    distOutfiles.all underDist = true := by
  refine ⟨rfl, rfl, rfl, ?_, ?_⟩ <;> decide

/-- C2 counterexample: `oneko` is declared without an option schema,
and `AnonymiseFileNames` is declared without `start` and `stop`
lifecycle hooks, so option schema and lifecycle hooks are not
mandatory parts of the declaration shape. -/
theorem plugin_shape_counterexample :
    onekoDecl.options = none ∧
    anonymiseFileNamesDecl.start = none ∧
    anonymiseFileNamesDecl.stop = none :=
  ⟨rfl, rfl, rfl⟩

/-- C2 (amended): every plugin declaration in the excerpt supplies a
non-empty name, a non-empty description and a non-empty authors list;
the option schema, the `start`/`stop` lifecycle hooks and the source
patches are each optional. -/
theorem plugin_shape_amended (p : PluginDecl) (h : p ∈ repoPlugins) :
    p.name ≠ "" ∧ p.description ≠ "" ∧ p.authors ≠ [] := by
  cases h with
  | head => exact ⟨by decide, by decide, by simp [onekoDecl]⟩
  | tail _ h =>
    cases h with
    | head => exact ⟨by decide, by decide, by simp [anonymiseFileNamesDecl]⟩
    | tail _ h => cases h

theorem plugin_shape_amended_witness :
    onekoDecl.name ≠ "" ∧ onekoDecl.description ≠ "" ∧ onekoDecl.authors ≠ [] :=
  plugin_shape_amended onekoDecl (List.Mem.head _)

/-- C3 (spec-modelled manager): a lifecycle hook that returns normally
has its new browser state installed, and a hook that throws is caught
— the wrapper still returns a world — with the failure reported on
the user-visible log. -/
theorem lifecycle_errors_caught (hook : PluginHook) (phase pluginName : String)
    (w : ManagedWorld) :
    (∀ b, hook w.browser = .ok b →
      runLifecycleHook hook phase pluginName w = { w with browser := b }) ∧
    (∀ e, hook w.browser = .error e →
      runLifecycleHook hook phase pluginName w =
        { w with log := w.log ++
            ["Failed to " ++ phase ++ " " ++ pluginName ++ ": " ++ e] }) := by
  constructor <;> intro x h <;> unfold runLifecycleHook <;> rw [h]

theorem lifecycle_errors_caught_witness :
    runLifecycleHook (fun _ => .error "boom") "start" "oneko" sampleManagedWorld =
      { sampleManagedWorld with log := ["Failed to start oneko: boom"] } :=
  (lifecycle_errors_caught (fun _ => .error "boom") "start" "oneko"
    sampleManagedWorld).2 "boom" rfl

/-- C1 counterexample: the helpers are not uniform branch-free
forwarders.  On a world whose store caches a profile for `"7"`,
`fetchUserProfile` issues no REST request and dispatches nothing —
yet on an empty store it does issue the request (so its behaviour
branches on host state instead of forwarding unconditionally) — and
`openUserProfile` throws instead of forwarding when the user does not
exist. -/
theorem discord_helpers_counterexample :
    (fetchUserProfile sampleHost "7" none cachedWorld).2.restRequests = [] ∧
    (fetchUserProfile sampleHost "7" none cachedWorld).2.dispatchedEvents = [] ∧
    (fetchUserProfile sampleHost "7" none emptyWorld).2.restRequests ≠ [] ∧
    openUserProfile sampleProfileHost "ZZZ" = .error "No such user: ZZZ" := by
  refine ⟨rfl, rfl, ?_, rfl⟩
  decide

/-- C1 (amended): `sendMessage` and `openImageModal` forward their
arguments (after filling in constant defaults) to the host functions
with no further logic; but `openUserProfile` branches on the fetched
user, throwing when it is missing, and `fetchUserProfile` branches on
the profile cache — returning the cached profile and touching nothing
when the store has one, and performing exactly one REST request
otherwise. -/
theorem discord_helpers_amended {α : Type} (mhost : MessageHost α)
    (ohost : ModalHost) (phost : ProfileHost) (dhost : DiscordHost)
    (channelId : String) (data : PartialMessageObject)
    (waitForChannelReady : Option Bool) (extra : Option PartialMessageExtra)
    (url : String) (props : PartialImageModalProps) (id : String)
    (options : Option FetchUserProfileOptions) (w : DiscordWorld) :
    sendMessage mhost channelId data waitForChannelReady extra =
      mhost.sendMessageImpl channelId (mergeMessageData data) waitForChannelReady extra ∧
    openImageModal ohost url props =
      ohost.openModalImpl (imageModalRender ohost url props) ∧
    (phost.fetchUser id = none →
      openUserProfile phost id = .error ("No such user: " ++ id)) ∧
    (∀ p, w.profiles id = some p →
      fetchUserProfile dhost id options w = (some p, w)) ∧
    (w.profiles id = none →
      (fetchUserProfile dhost id options w).2.restRequests =
        w.restRequests ++
          [{ url := "/users/" ++ id ++ "/profile"
             query := mergeQuery options
             oldFormErrors := true }]) := by
  refine ⟨rfl, rfl, ?_, ?_, ?_⟩
  · intro h
    unfold openUserProfile
    rw [h]
  · intro p h
    unfold fetchUserProfile
    rw [h]
  · intro h
    unfold fetchUserProfile
    rw [h]
    simp only [dispatch]
    split <;> rfl

theorem discord_helpers_amended_witness :
    openUserProfile sampleProfileHost "ZZZ" = .error ("No such user: " ++ "ZZZ") ∧
    fetchUserProfile sampleHost "7" none cachedWorld = (some sampleProfile, cachedWorld) ∧
    (fetchUserProfile sampleHost "9" none emptyWorld).2.restRequests =
      [{ url := "/users/" ++ "9" ++ "/profile"
         query := mergeQuery none
         oldFormErrors := true }] := by
  have h := discord_helpers_amended sampleMessageHost sampleModalHost
    sampleProfileHost sampleHost "chan" {} none none "url" {} "ZZZ" none cachedWorld
  have h9 := discord_helpers_amended sampleMessageHost sampleModalHost
    sampleProfileHost sampleHost "chan" {} none none "url" {} "7" none cachedWorld
  have h10 := discord_helpers_amended sampleMessageHost sampleModalHost
    sampleProfileHost sampleHost "chan" {} none none "url" {} "9" none emptyWorld
  exact ⟨h.2.2.1 rfl, h9.2.2.2.1 sampleProfile rfl, h10.2.2.2.2 rfl⟩

/-- Association-list lookup finds a key bound in the prefix. -/
theorem lookup_append_some :
    ∀ (l₁ : List (String × DefineVal)) {l₂ : List (String × DefineVal)}
      {k : String} {v : DefineVal},
      List.lookup k l₁ = some v → List.lookup k (l₁ ++ l₂) = some v
  | [], _, _, _, h => Option.noConfusion h
  | (k', v') :: xs, l₂, k, v, h => by
      simp only [List.lookup, List.cons_append] at h ⊢
      cases hk : (k == k') with
      | false =>
          simp only [hk] at h ⊢
          exact lookup_append_some xs h
      | true => simp only [hk] at h ⊢; exact h

/-- The `build.mts` define map binds no key besides its eight base
entries and `process.platform`. -/
theorem lookup_mtsDefines_none (e : MtsEnv) (k : String)
    (hb : List.lookup k (mtsDefinesBase e) = none)
    (hp : (k == "process.platform") = false) :
    List.lookup k (mtsDefines e) = none := by
  unfold mtsDefines
  rw [lookup_append_none _ hb]
  split
  · simp only [List.lookup, hp]
  · rfl

/-- The `build.mjs` define map binds no key besides its five base
entries and `process.platform`. -/
theorem lookup_mjsDefines_none (e : MjsEnv) (k : String)
    (hb : List.lookup k (mjsDefinesBase e) = none)
    (hp : (k == "process.platform") = false) :
    List.lookup k (mjsDefines e) = none := by
  unfold mjsDefines
  rw [lookup_append_none _ hb]
  split
  · simp only [List.lookup, hp]
  · rfl

/-- In a `build.mts` bundle, the target flags are read off the
bundle-specific tail of the define map. -/
theorem flagPair_mts_append (e : MtsEnv) (ep : List String) (o f : String)
    (g : Option String) (tail : List (String × DefineVal)) :
    flagPair { entryPoints := ep, outfile := o, format := f, globalName := g
               define := mtsDefines e ++ tail } =
      (flagTruth (List.lookup "IS_DISCORD_DESKTOP" tail),
       flagTruth (List.lookup "IS_VESKTOP" tail)) := by
  have h1 : List.lookup "IS_DISCORD_DESKTOP" (mtsDefines e ++ tail) =
      List.lookup "IS_DISCORD_DESKTOP" tail :=
    lookup_append_none _ (lookup_mtsDefines_none e "IS_DISCORD_DESKTOP" rfl rfl)
  have h2 : List.lookup "IS_VESKTOP" (mtsDefines e ++ tail) =
      List.lookup "IS_VESKTOP" tail :=
    lookup_append_none _ (lookup_mtsDefines_none e "IS_VESKTOP" rfl rfl)
  simp only [flagPair, flagValue, h1, h2]

/-- In a `build.mjs` bundle, the target flags are read off the
bundle-specific tail of the define map. -/
theorem flagPair_mjs_append (e : MjsEnv) (ep : List String) (o f : String)
    (g : Option String) (tail : List (String × DefineVal)) :
    flagPair { entryPoints := ep, outfile := o, format := f, globalName := g
               define := mjsDefines e ++ tail } =
      (flagTruth (List.lookup "IS_DISCORD_DESKTOP" tail),
       flagTruth (List.lookup "IS_VESKTOP" tail)) := by
  have h1 : List.lookup "IS_DISCORD_DESKTOP" (mjsDefines e ++ tail) =
      List.lookup "IS_DISCORD_DESKTOP" tail :=
    lookup_append_none _ (lookup_mjsDefines_none e "IS_DISCORD_DESKTOP" rfl rfl)
  have h2 : List.lookup "IS_VESKTOP" (mjsDefines e ++ tail) =
      List.lookup "IS_VESKTOP" tail :=
    lookup_append_none _ (lookup_mjsDefines_none e "IS_VESKTOP" rfl rfl)
  simp only [flagPair, flagValue, h1, h2]

/-- C7: in every one of the twelve bundle configurations (six per
build script), exactly one of `IS_DISCORD_DESKTOP` and `IS_VESKTOP`
is defined as `true` and the other as `false`. -/
theorem target_flags_exclusive (e : MtsEnv) (e' : MjsEnv) :
    ((mtsBuildOptions e ++ mjsBuilds e').all exactlyOneTargetFlag) = true := by
  simp only [mtsBuildOptions, mjsBuilds, List.cons_append, List.nil_append,
    List.all_cons, List.all_nil, exactlyOneTargetFlag,
    flagPair_mts_append, flagPair_mjs_append]
  rfl

/-- Every `build.mts` define map binds `IS_REPORTER` (to the
stringified imported constant). -/
theorem lookup_mts_reporter (e : MtsEnv) (tail : List (String × DefineVal)) :
    List.lookup "IS_REPORTER" (mtsDefines e ++ tail) =
      some (.str (jsonBool e.IS_REPORTER)) :=
  lookup_append_some _ (lookup_append_some _ rfl)

/-- Every `build.mts` define map binds `IS_EXTENSION` (to `"false"`). -/
theorem lookup_mts_extension (e : MtsEnv) (tail : List (String × DefineVal)) :
    List.lookup "IS_EXTENSION" (mtsDefines e ++ tail) =
      some (.str (jsonBool false)) :=
  lookup_append_some _ (lookup_append_some _ rfl)

/-- Every `build.mts` define map binds `IS_WEB` (to `"false"`). -/
theorem lookup_mts_web (e : MtsEnv) (tail : List (String × DefineVal)) :
    List.lookup "IS_WEB" (mtsDefines e ++ tail) =
      some (.str (jsonBool false)) :=
  lookup_append_some _ (lookup_append_some _ rfl)

/-- A `build.mjs` define map resolves `IS_REPORTER` only in the
bundle-specific tail (where no bundle ever puts it). -/
theorem lookup_mjs_reporter (e : MjsEnv) (tail : List (String × DefineVal)) :
    List.lookup "IS_REPORTER" (mjsDefines e ++ tail) =
      List.lookup "IS_REPORTER" tail :=
  lookup_append_none _ (lookup_mjsDefines_none e "IS_REPORTER" rfl rfl)

/-- A `build.mjs` define map resolves `IS_EXTENSION` only in the
bundle-specific tail (where no bundle ever puts it). -/
theorem lookup_mjs_extension (e : MjsEnv) (tail : List (String × DefineVal)) :
    List.lookup "IS_EXTENSION" (mjsDefines e ++ tail) =
      List.lookup "IS_EXTENSION" tail :=
  lookup_append_none _ (lookup_mjsDefines_none e "IS_EXTENSION" rfl rfl)

/-- C6 counterexample: the two scripts do not produce the same define
flags.  At a concrete environment, the first bundle (the Discord
Desktop patcher) of `build.mts` defines `IS_REPORTER` while the same
bundle of `build.mjs` defines no such flag. -/
theorem build_scripts_equivalence_counterexample :
    ((mtsBuildOptions sampleMtsEnv).head?.map
      (fun c => List.lookup "IS_REPORTER" c.define)) =
        some (some (.str "false")) ∧
    ((mjsBuilds sampleMjsEnv).head?.map
      (fun c => List.lookup "IS_REPORTER" c.define)) = some none := by
  exact ⟨rfl, rfl⟩

/-- C6 (amended): for each of the six bundles, the two scripts
configure the same entry point, output file, module format and IIFE
global name, and give the two target flags the same truth values; but
the injected define maps differ — `build.mts` defines `IS_REPORTER`,
`IS_EXTENSION` and `IS_WEB` in every bundle, while `build.mjs` never
defines `IS_REPORTER` or `IS_EXTENSION` (and `IS_WEB` only in the two
renderer bundles, not shown here). -/
theorem build_scripts_near_equivalence (e : MtsEnv) (e' : MjsEnv) :
    (mtsBuildOptions e).map bundleShape = (mjsBuilds e').map bundleShape ∧
    (mtsBuildOptions e).map flagPair = (mjsBuilds e').map flagPair ∧
    ((mtsBuildOptions e).all (fun c =>
      (List.lookup "IS_REPORTER" c.define).isSome &&
      (List.lookup "IS_EXTENSION" c.define).isSome &&
      (List.lookup "IS_WEB" c.define).isSome)) = true ∧
    ((mjsBuilds e').all (fun c =>
      (List.lookup "IS_REPORTER" c.define).isNone &&
      (List.lookup "IS_EXTENSION" c.define).isNone)) = true := by
  refine ⟨rfl, ?_, ?_, ?_⟩
  · simp only [mtsBuildOptions, mjsBuilds, List.map_cons, List.map_nil,
      flagPair_mts_append, flagPair_mjs_append]
    rfl
  · simp only [mtsBuildOptions, List.all_cons, List.all_nil,
      lookup_mts_reporter, lookup_mts_extension, lookup_mts_web]
    rfl
  · simp only [mjsBuilds, List.all_cons, List.all_nil,
      lookup_mjs_reporter, lookup_mjs_extension]
    rfl

/-- The inner loop of the native-module scan: its keys are the
resolved names of exactly the directory entries holding a native
module, appended after whatever was already accumulated. -/
theorem nativeStep_fold_fst (fs : FS) (resolve : String → String → String)
    (dirPath : String) :
    ∀ (files : List String) (acc : List (String × Nat)),
      ((files.foldl (nativeStep fs resolve dirPath) acc).map Prod.fst) =
        acc.map Prod.fst ++
          ((files.filter (fun f => hasNativeModule fs dirPath f)).map
            (fun f => resolve dirPath f))
  | [], acc => by simp
  | f :: files, acc => by
      have hcond : (!fs.pathExists (joinPath (joinPath dirPath f) "native.ts") &&
          !fs.pathExists (joinPath (joinPath dirPath f) "native/index.ts")) =
          !hasNativeModule fs dirPath f := by
        unfold hasNativeModule
        cases fs.pathExists (joinPath (joinPath dirPath f) "native.ts") <;>
          cases fs.pathExists (joinPath (joinPath dirPath f) "native/index.ts") <;> rfl
      rw [List.foldl_cons, List.filter_cons,
        nativeStep_fold_fst fs resolve dirPath files]
      unfold nativeStep
      rw [hcond]
      cases h : hasNativeModule fs dirPath f <;> simp [h]

/-- The inner loop of the native-module scan keeps the module indices
sequential. -/
theorem nativeStep_fold_snd (fs : FS) (resolve : String → String → String)
    (dirPath : String) :
    ∀ (files : List String) (acc : List (String × Nat)),
      acc.map Prod.snd = List.range acc.length →
      ((files.foldl (nativeStep fs resolve dirPath) acc).map Prod.snd) =
        List.range (files.foldl (nativeStep fs resolve dirPath) acc).length
  | [], acc, h => h
  | f :: files, acc, h => by
      rw [List.foldl_cons]
      refine nativeStep_fold_snd fs resolve dirPath files _ ?_
      unfold nativeStep
      split
      · exact h
      · simp [h, List.range_succ]

/-- The outer loop of the native-module scan: the accumulated keys
are the claim's filter-and-map over the plugin directories. -/
theorem dirStep_fold_fst (fs : FS) (resolve : String → String → String) :
    ∀ (dirs : List String) (acc : List (String × Nat)),
      ((dirs.foldl (dirStep fs resolve) acc).map Prod.fst) =
        acc.map Prod.fst ++
          (dirs.filter (fun d => fs.pathExists (joinPath "src" d))).flatMap
            (fun d => ((fs.readdir (joinPath "src" d)).filter
                (fun f => hasNativeModule fs (joinPath "src" d) f)).map
              (fun f => resolve (joinPath "src" d) f))
  | [], acc => by simp
  | d :: dirs, acc => by
      rw [List.foldl_cons, List.filter_cons,
        dirStep_fold_fst fs resolve dirs]
      unfold dirStep
      cases h : fs.pathExists (joinPath "src" d) with
      | false => simp [h]
      | true => simp [h, nativeStep_fold_fst fs resolve (joinPath "src" d)]

/-- The outer loop of the native-module scan keeps the module indices
sequential. -/
theorem dirStep_fold_snd (fs : FS) (resolve : String → String → String) :
    ∀ (dirs : List String) (acc : List (String × Nat)),
      acc.map Prod.snd = List.range acc.length →
      ((dirs.foldl (dirStep fs resolve) acc).map Prod.snd) =
        List.range (dirs.foldl (dirStep fs resolve) acc).length
  | [], _, h => h
  | d :: dirs, acc, h => by
      rw [List.foldl_cons]
      refine dirStep_fold_snd fs resolve dirs _ ?_
      unfold dirStep
      split
      · exact h
      · exact nativeStep_fold_snd fs resolve _ _ acc h

/-- C4: the generated native-plugin manifest is exactly the directory
scan the claim describes — `plugins` and `userplugins` under `src`
are scanned (a missing directory is skipped), and a plugin directory
contributes exactly one entry, keyed by its resolved plugin name, if
and only if it has a `native.ts` or a `native/index.ts`; the module
indices attached to the entries are sequential. -/
theorem globNatives_scan (fs : FS) (resolve : String → String → String) :
    (globNativesEntries fs resolve).map Prod.fst = claimManifest fs resolve ∧
    (globNativesEntries fs resolve).map Prod.snd =
      List.range (globNativesEntries fs resolve).length := by
  constructor
  · rw [globNativesEntries, dirStep_fold_fst fs resolve pluginDirs []]
    rfl
  · exact dirStep_fold_snd fs resolve pluginDirs [] rfl

/-- The leftmost index at which an end-anchored pattern matches,
mapped through `drop`, is the first matching suffix in `tails`. -/
theorem find_range_drop (p : List Char → Bool) (hnil : p [] = false) :
    ∀ cs : List Char,
      ((List.range cs.length).find? (fun i => p (cs.drop i))).map
          (fun i => cs.drop i) =
        cs.tails.find? p
  | [] => by
      have h : ([] : List Char).tails = [[]] := by simp
      rw [h]
      simp [List.find?, hnil]
  | c :: cs => by
      rw [List.tails_cons, List.length_cons, List.range_succ_eq_map]
      cases h : p (c :: cs) with
      | true =>
          rw [List.find?_cons_of_pos _ h,
            @List.find?_cons_of_pos Nat (fun i => p ((c :: cs).drop i)) 0
              (List.map Nat.succ (List.range cs.length)) h]
          rfl
      | false =>
          rw [@List.find?_cons_of_neg (List Char) p (c :: cs) cs.tails (by simp [h]),
            @List.find?_cons_of_neg Nat (fun i => p ((c :: cs).drop i)) 0
              (List.map Nat.succ (List.range cs.length)) (by simp [h]),
            List.find?_map, Option.map_map]
          exact find_range_drop p hnil cs

/-- `lastIndexOf(".")`, mapped through `drop`, is the last (shortest)
suffix beginning with `'.'`. -/
theorem lastDot_tails :
    ∀ cs : List Char,
      (lastIndexOfDot cs).map (fun i => cs.drop i) =
        (cs.tails.filter (fun t => t.head? == some '.')).getLast?
  | [] => by
      have h : ([] : List Char).tails = [[]] := by simp
      rw [h]
      rfl
  | c :: cs => by
      have ih := lastDot_tails cs
      rw [List.tails_cons, List.filter_cons]
      cases hd : lastIndexOfDot cs with
      | none =>
          rw [hd] at ih
          have hR : (cs.tails.filter (fun t => t.head? == some '.')) = [] :=
            List.getLast?_eq_none_iff.mp ih.symm
          rw [hR]
          simp only [lastIndexOfDot, hd]
          by_cases hc : c = '.'
          · simp [hc]
          · simp [hc]
      | some i =>
          rw [hd] at ih
          simp only [Option.map_some'] at ih
          simp only [lastIndexOfDot, hd]
          cases hR : (cs.tails.filter (fun t => t.head? == some '.')) with
          | nil => rw [hR] at ih; exact absurd ih (by simp)
          | cons r rs =>
              rw [hR] at ih
              by_cases hc : c = '.'
              · rw [if_pos (by simp [hc]), List.getLast?_cons_cons]
                exact ih
              · rw [if_neg (by simp [hc])]
                exact ih

/-- The extension the code computes is the extension the claim
describes. -/
theorem anonymiseExt_eq_claimExt (file : String) :
    anonymiseExt file = claimExt file := by
  have h1 := find_range_drop tarSuffixMatch rfl file.toList
  have h2 := lastDot_tails file.toList
  unfold anonymiseExt claimExt tarExtIndex
  cases h : (List.range file.toList.length).find?
      (fun i => tarSuffixMatch (file.toList.drop i)) with
  | some i =>
      rw [h] at h1
      simp only [Option.map_some'] at h1
      rw [← h1]
      rfl
  | none =>
      rw [h] at h1
      simp only [Option.map_none'] at h1
      rw [← h1]
      cases hd : lastIndexOfDot file.toList with
      | some j =>
          rw [hd] at h2
          simp only [Option.map_some'] at h2
          rw [← h2]
          rfl
      | none =>
          rw [hd] at h2
          simp only [Option.map_none'] at h2
          rw [← h2]
          rfl

/-- C8: `anonymise` returns the freshly chosen base name followed by
the original filename's extension — the whole suffix matched by
`/\.tar\.\w+$/` when the name matches it, otherwise the suffix from
the last `'.'`, otherwise `""` — and that extension is a suffix of
the original name, so only the base name before it is replaced. -/
theorem anonymise_replaces_only_base (settings : AnonSettings)
    (rand : Nat → Fin 62) (now perfNow : Nat) (file : String) :
    anonymise settings rand now perfNow file =
      anonName settings rand now perfNow ++ claimExt file ∧
    (∃ base, file = base ++ claimExt file) ∧
    anonymiseExt file = claimExt file := by
  refine ⟨?_, ?_, anonymiseExt_eq_claimExt file⟩
  · unfold anonymise
    rw [anonymiseExt_eq_claimExt]
  · rw [← anonymiseExt_eq_claimExt]
    unfold anonymiseExt
    cases h : (tarExtIndex file.toList).orElse
        (fun _ => lastIndexOfDot file.toList) with
    | some i =>
        refine ⟨String.mk (file.toList.take i), ?_⟩
        exact (congrArg String.mk (List.take_append_drop i file.toList)).symm
    | none =>
        refine ⟨file, ?_⟩
        exact (congrArg String.mk (List.append_nil file.data)).symm

end Vencord
